import Mathlib

/-!
Shallow embedding of `src/dashboard3.py` (AWS cost-optimization dashboard).

Conventions of the embedding:
* Python decimal amounts are modelled as rationals (`ℚ`); Python's `round(x, 2)`
  is modelled as rounding to the nearest multiple of 1/100 with ties to even.
* `datetime` instants are modelled as epoch seconds (`ℤ`); `timedelta(days=d)`
  is `d * 86400` seconds; `strftime("%Y-%m-%d")` is modelled by the day number
  `t / 86400` (integer floor division), which determines the date string.
* boto3 network calls are modelled by passing their outcome in as an
  `Except`-valued argument: a raised exception is `Except.error`, a response is
  `Except.ok`.  Python exception propagation is the `Except` monad's bind.
* Python dict keys that may be absent (`addr.get`, `"InstanceId" not in addr`,
  `s.get("VolumeSize", 0)`) are `Option` fields of the corresponding record.
-/

namespace Dashboard

/-- Python's `round` to an integer: nearest integer, ties go to the even one. -/
def roundHalfEven (x : ℚ) : ℤ :=
  let n := ⌊x⌋
  let frac := x - n
  if frac < 1/2 then n
  else if 1/2 < frac then n + 1
  else if n % 2 = 0 then n else n + 1

/-- Python's `round(x, 2)`: round to the nearest hundredth. -/
def round2 (x : ℚ) : ℚ := (roundHalfEven (x * 100) : ℚ) / 100

/-- Seconds in `timedelta(days=d)`. -/
def daysSec (d : ℤ) : ℤ := d * 86400

/-- The calendar day of an instant, modelling `strftime("%Y-%m-%d")`. -/
def secToDay (t : ℤ) : ℤ := t / 86400

/-! ### Pricing assumptions (dashboard3.py lines 81–83) -/

def EBS_COST_PER_GB : ℚ := 1/10

def EIP_COST_PER_MONTH : ℚ := 36/10

def SNAPSHOT_COST_PER_GB : ℚ := 5/100

/-! ### Raw inventory records (EC2 API responses) -/

/-- A raw volume record from `describe_volumes` (status "available"). -/
structure Volume where
  volumeId : String
  size : ℕ
  createTime : ℤ
deriving DecidableEq

/-- A raw address record from `describe_addresses`.  `domain` models the
optional `"Domain"` key and `instanceId` the optional `"InstanceId"` key. -/
structure Address where
  publicIp : String
  allocationId : String
  domain : Option String
  instanceId : Option String
deriving DecidableEq

/-- A raw snapshot record from `describe_snapshots(OwnerIds=['self'])`.
`volumeSize` models the optional `"VolumeSize"` key. -/
structure Snapshot where
  snapshotId : String
  volumeId : String
  startTime : ℤ
  state : String
  volumeSize : Option ℕ
deriving DecidableEq

/-! ### Enriched stale-resource records (dashboard3.py lines 87–123) -/

structure StaleVolume where
  volumeId : String
  sizeGiB : ℕ
  creationDate : ℤ
  region : String
  estimatedMonthlyCost : ℚ
deriving DecidableEq

structure StaleAddress where
  publicIp : String
  allocationId : String
  domain : String
  estimatedMonthlyCost : ℚ
deriving DecidableEq

structure StaleSnapshot where
  snapshotId : String
  volumeId : String
  startTime : ℤ
  state : String
  sizeGiB : ℕ
  estimatedMonthlyCost : ℚ
deriving DecidableEq

/-- The record built for each volume (dashboard3.py lines 88–94). -/
def mkStaleVolume (region : String) (v : Volume) : StaleVolume :=
  { volumeId := v.volumeId
    sizeGiB := v.size
    creationDate := secToDay v.createTime
    region := region
    estimatedMonthlyCost := round2 ((v.size : ℚ) * EBS_COST_PER_GB) }

/-- The record built for each unassociated address (dashboard3.py lines 101–106):
`"Domain": addr.get("Domain", "N/A")`. -/
def mkStaleAddress (addr : Address) : StaleAddress :=
  { publicIp := addr.publicIp
    allocationId := addr.allocationId
    domain := addr.domain.getD "N/A"
    estimatedMonthlyCost := EIP_COST_PER_MONTH }

/-- The record built for each old snapshot (dashboard3.py lines 114–121):
`"Size (GiB)": s.get("VolumeSize", 0)`. -/
def mkStaleSnapshot (s : Snapshot) : StaleSnapshot :=
  { snapshotId := s.snapshotId
    volumeId := s.volumeId
    startTime := secToDay s.startTime
    state := s.state
    sizeGiB := s.volumeSize.getD 0
    estimatedMonthlyCost := round2 ((s.volumeSize.getD 0 : ℚ) * SNAPSHOT_COST_PER_GB) }

/-- The comprehension over `volumes["Volumes"]` (lines 87–96). -/
def unattached_volumes (region : String) (volumes : List Volume) : List StaleVolume :=
  volumes.map (mkStaleVolume region)

/-- The comprehension over `addresses["Addresses"]` with its
`if "InstanceId" not in addr` guard (lines 100–108). -/
def unassociated_eips (addresses : List Address) : List StaleAddress :=
  addresses.filterMap fun addr =>
    if addr.instanceId = none then some (mkStaleAddress addr) else none

/-- The comprehension over `snapshots["Snapshots"]` with its
`s["StartTime"] < cutoff_date` guard, `cutoff_date = now - timedelta(days=60)`
evaluated once before the comprehension (lines 112–123). -/
def old_snapshots (now : ℤ) (snapshots : List Snapshot) : List StaleSnapshot :=
  let cutoff_date := now - daysSec 60
  snapshots.filterMap fun s =>
    if s.startTime < cutoff_date then some (mkStaleSnapshot s) else none

/-- Errors raised by the EC2 inventory calls. -/
inductive AwsError where
  | transient (msg : String)
  | auth (msg : String)
deriving DecidableEq

/-- The tuple returned by `detect_stale_resources_with_cost` (line 129). -/
structure StaleResult where
  unattachedVolumes : List StaleVolume
  unassociatedEips : List StaleAddress
  oldSnapshots : List StaleSnapshot
  totalSavings : ℚ
deriving DecidableEq

/-- `detect_stale_resources_with_cost` (lines 76–129).  The three EC2 calls are
passed in as their outcomes, in the order the source issues them; a raised
exception propagates out of the whole function, so the result is in `Except`.
`now` is `datetime.utcnow()` at line 112, evaluated once. -/
def detect_stale_resources_with_cost (now : ℤ) (region : String)
    (volumesCall : Except AwsError (List Volume))
    (addressesCall : Except AwsError (List Address))
    (snapshotsCall : Except AwsError (List Snapshot)) :
    Except AwsError StaleResult := do
  let volumes ← volumesCall
  let uv := unattached_volumes region volumes
  let addresses ← addressesCall
  let ue := unassociated_eips addresses
  let snapshots ← snapshotsCall
  let os := old_snapshots now snapshots
  let total_savings :=
    (uv.map (·.estimatedMonthlyCost)).sum
      + (ue.map (·.estimatedMonthlyCost)).sum
      + (os.map (·.estimatedMonthlyCost)).sum
  return ⟨uv, ue, os, total_savings⟩

/-! ### Object store reader (dashboard3.py lines 32–40) -/

/-- Values in the Python value space returned by `json.loads` and by the
reader itself.  JSON `null` parses to the Python value `None`, which is the
same value the `except` branch returns; `pynone` models that single value. -/
inductive PyVal where
  | pynone
  | bool (b : Bool)
  | num (q : ℚ)
  | str (s : String)
  | list (xs : List PyVal)
  | dict (fields : List (String × PyVal))

/-- Errors raised by `s3.get_object`. -/
inductive S3Error where
  | notFound
  | accessDenied
deriving DecidableEq

/-- Error raised by `json.loads` on an invalid body. -/
inductive ParseError where
  | invalidJson
deriving DecidableEq

/-- `get_lambda_results_from_s3` (lines 32–40).  The `get_object` call is
passed in as its outcome (body string on success); `parse` models
`json.loads`.  Any exception is caught, `st.error` is shown, and the Python
value `None` is returned. -/
def get_lambda_results_from_s3 (getObject : Except S3Error String)
    (parse : String → Except ParseError PyVal) : PyVal :=
  match getObject with
  | .error _ => .pynone
  | .ok body =>
    match parse body with
    | .error _ => .pynone
    | .ok data => data

/-- A concrete fragment of `json.loads` used to instantiate `parse` on the
inputs of interest: the body `"null"` parses to Python `None`, the body
`"{}"` to an empty dict, and a non-JSON body fails. -/
def demoParse (body : String) : Except ParseError PyVal :=
  if body = "null" then .ok .pynone
  else if body = "\x7b\x7d" then .ok (.dict [])
  else .error .invalidJson

/-! ### Cost Explorer fetch and aggregation (dashboard3.py lines 45–71, 186–204) -/

/-- One group inside a `ResultsByTime` entry: service key and unblended
cost amount. -/
structure CEGroup where
  key : String
  amount : ℚ
deriving DecidableEq

/-- One entry of `response["ResultsByTime"]`: the period start date and the
per-service groups. -/
structure CEResultByTime where
  periodStart : ℤ
  groups : List CEGroup
deriving DecidableEq

/-- One row of the DataFrame built by `fetch_cost_explorer_data`
(line 69: `{"Date": ..., "Service": ..., "Cost": ...}`). -/
structure CostRow where
  date : ℤ
  service : String
  cost : ℚ
deriving DecidableEq

/-- The row-building loop of `fetch_cost_explorer_data` (lines 63–71): for
each `ResultsByTime` entry, one row per group. -/
def fetch_rows (results : List CEResultByTime) : List CostRow :=
  results.flatMap fun result =>
    result.groups.map fun group =>
      { date := result.periodStart, service := group.key, cost := group.amount }

/-- Error raised by `ce.get_cost_and_usage`. -/
inductive CEError where
  | apiError (msg : String)
deriving DecidableEq

/-- Outcome of the dashboard's Cost Explorer section. -/
inductive CostSectionResult where
  | rangeError (msg : String)
  | data (rows : List CostRow)
  | apiFailure (e : CEError)
deriving DecidableEq

/-- The dashboard's Cost Explorer section (lines 186–197): the guard
`if start_date >= end_date` shows an error and skips the fetch entirely;
otherwise `fetch_cost_explorer_data` is invoked, issuing one
`get_cost_and_usage` call whose outcome is `ceCall`.  The second component
counts the network calls issued to the billing API. -/
def dashboard_cost_section (start_date end_date : ℤ)
    (ceCall : Except CEError (List CEResultByTime)) :
    CostSectionResult × ℕ :=
  if start_date ≥ end_date then
    (.rangeError "End Date must be after Start Date", 0)
  else
    match ceCall with
    | .error e => (.apiFailure e, 1)
    | .ok results => (.data (fetch_rows results), 1)

/-- `df_cost["Cost"].sum()` (line 200): pandas' left-to-right summation of
the Cost column starting from 0. -/
def total_cost (rows : List CostRow) : ℚ :=
  rows.foldl (fun acc r => acc + r.cost) 0

/-- Insert a (service, cost) observation into a running per-service total:
the first matching key is incremented, a missing key is appended at the
end. -/
def upsert (key : String) (c : ℚ) : List (String × ℚ) → List (String × ℚ)
  | [] => [(key, c)]
  | (k, v) :: rest =>
    if k = key then (k, v + c) :: rest else (k, v) :: upsert key c rest

/-- `df_cost.groupby("Service")["Cost"].sum()` (line 202): per-service sums
of the Cost column, as an association list from service to total. -/
def service_summary (rows : List CostRow) : List (String × ℚ) :=
  rows.foldl (fun acc r => upsert r.service r.cost acc) []

/-- Retrieve the running total for one service from a per-service summary,
modelling indexing the grouped pandas Series by its label. -/
def lookupService (s : String) : List (String × ℚ) → Option ℚ
  | [] => none
  | (k, v) :: rest => if k = s then some v else lookupService s rest

/-- Fields of a raw snapshot record other than its `State`. -/
def snapSansState (s : Snapshot) : String × String × ℤ × Option ℕ :=
  (s.snapshotId, s.volumeId, s.startTime, s.volumeSize)

/-- Fields of an enriched stale-snapshot record other than its `State`. -/
def staleSnapSansState (x : StaleSnapshot) : String × String × ℤ × ℕ × ℚ :=
  (x.snapshotId, x.volumeId, x.startTime, x.sizeGiB, x.estimatedMonthlyCost)

/-! ## General lemmas about the embedded operations -/

theorem roundHalfEven_intCast (z : ℤ) : roundHalfEven (z : ℚ) = z := by
  simp [roundHalfEven]

theorem round2_nat_mul_tenth (n : ℕ) :
    round2 ((n : ℚ) * (1 / 10)) = (n : ℚ) * (1 / 10) := by
  have hq : ((n : ℚ) * (1 / 10)) * 100 = ((n * 10 : ℤ) : ℚ) := by
    push_cast
    ring
  rw [round2, hq, roundHalfEven_intCast]
  push_cast
  ring

theorem round2_nat_mul_twentieth (n : ℕ) :
    round2 ((n : ℚ) * (5 / 100)) = (n : ℚ) * (5 / 100) := by
  have hq : ((n : ℚ) * (5 / 100)) * 100 = ((n * 5 : ℤ) : ℚ) := by
    push_cast
    ring
  rw [round2, hq, roundHalfEven_intCast]
  push_cast
  ring

theorem old_snapshots_cons (now : ℤ) (s : Snapshot) (rest : List Snapshot) :
    old_snapshots now (s :: rest) =
      if s.startTime < now - daysSec 60 then
        mkStaleSnapshot s :: old_snapshots now rest
      else old_snapshots now rest := by
  by_cases h : s.startTime < now - daysSec 60 <;>
    simp [old_snapshots, List.filterMap_cons, h]

theorem total_cost_foldl_from (acc : ℚ) (rows : List CostRow) :
    rows.foldl (fun a r => a + r.cost) acc = acc + (rows.map (·.cost)).sum := by
  induction rows generalizing acc with
  | nil => simp
  | cons r rs ih => simp [ih, add_assoc]

theorem lookupService_upsert (key s : String) (c : ℚ) (l : List (String × ℚ)) :
    lookupService s (upsert key c l) =
      if s = key then some ((lookupService s l).getD 0 + c)
      else lookupService s l := by
  induction l with
  | nil =>
    by_cases h : s = key
    · subst h
      simp [upsert, lookupService]
    · have h' : ¬key = s := fun hh => h hh.symm
      simp [upsert, lookupService, h, h']
  | cons kv rest ih =>
    obtain ⟨k, v⟩ := kv
    by_cases hk : k = key
    · subst hk
      by_cases hs : s = k
      · subst hs
        simp [upsert, lookupService]
      · have hs' : ¬k = s := fun hh => hs hh.symm
        simp [upsert, lookupService, hs, hs']
    · by_cases hs : k = s
      · subst hs
        simp [upsert, lookupService, hk]
      · simp only [upsert, if_neg hk]
        simp [lookupService, hs, ih]

theorem service_summary_foldl_from (rows : List CostRow)
    (acc : List (String × ℚ)) (s : String) :
    (lookupService s
        (rows.foldl (fun a r => upsert r.service r.cost a) acc)).getD 0 =
      (lookupService s acc).getD 0 +
        ((rows.filter (fun r => r.service = s)).map (·.cost)).sum := by
  induction rows generalizing acc with
  | nil => simp
  | cons r rs ih =>
    simp only [List.foldl_cons]
    rw [ih, lookupService_upsert]
    by_cases h : r.service = s
    · simp [h, List.filter_cons, add_assoc]
    · simp [h, List.filter_cons, Ne.symm h]

/-! ## Claim theorems -/

/-- C1: for every run of the stale-resource estimation in which any one of
the three inventory calls (volumes, addresses, snapshots) fails, the
operation as a whole fails with an error raised by one of the failing calls,
and returns no result tuple: no per-category lists and no `totalSavings`. -/
theorem detect_fails_on_any_inventory_error (now : ℤ) (region : String)
    (volumesCall : Except AwsError (List Volume))
    (addressesCall : Except AwsError (List Address))
    (snapshotsCall : Except AwsError (List Snapshot)) (e : AwsError)
    (h : volumesCall = .error e ∨ addressesCall = .error e ∨
      snapshotsCall = .error e) :
    (∃ e', detect_stale_resources_with_cost now region volumesCall
          addressesCall snapshotsCall = .error e' ∧
        (volumesCall = .error e' ∨ addressesCall = .error e' ∨
          snapshotsCall = .error e')) ∧
      ∀ r : StaleResult,
        detect_stale_resources_with_cost now region volumesCall
          addressesCall snapshotsCall ≠ .ok r := by
  have main : ∃ e', detect_stale_resources_with_cost now region volumesCall
      addressesCall snapshotsCall = .error e' ∧
      (volumesCall = .error e' ∨ addressesCall = .error e' ∨
        snapshotsCall = .error e') := by
    cases volumesCall with
    | error ev => exact ⟨ev, rfl, Or.inl rfl⟩
    | ok vs =>
      cases addressesCall with
      | error ea => exact ⟨ea, rfl, Or.inr (Or.inl rfl)⟩
      | ok addrs =>
        cases snapshotsCall with
        | error es => exact ⟨es, rfl, Or.inr (Or.inr rfl)⟩
        | ok snaps => rcases h with h | h | h <;> exact Except.noConfusion h
  obtain ⟨e', heq, horig⟩ := main
  refine ⟨⟨e', heq, horig⟩, fun r hr => ?_⟩
  rw [heq] at hr
  exact Except.noConfusion hr

/-- Witness for C1: a concrete run where only the snapshots call fails. -/
theorem detect_fails_on_any_inventory_error_witness :
    (∃ e', detect_stale_resources_with_cost 0 "us-east-1" (Except.ok [])
          (Except.ok [])
          (Except.error (AwsError.transient "RequestLimitExceeded"))
          = Except.error e' ∧
        ((Except.ok [] : Except AwsError (List Volume)) = Except.error e' ∨
          (Except.ok [] : Except AwsError (List Address)) = Except.error e' ∨
          (Except.error (AwsError.transient "RequestLimitExceeded") :
              Except AwsError (List Snapshot)) = Except.error e')) ∧
      ∀ r : StaleResult,
        detect_stale_resources_with_cost 0 "us-east-1" (Except.ok [])
          (Except.ok [])
          (Except.error (AwsError.transient "RequestLimitExceeded"))
          ≠ Except.ok r :=
  detect_fails_on_any_inventory_error 0 "us-east-1" (Except.ok [])
    (Except.ok []) (Except.error (AwsError.transient "RequestLimitExceeded"))
    (AwsError.transient "RequestLimitExceeded") (Or.inr (Or.inr rfl))

/-- C2: whenever the chosen start date is greater than or equal to the end
date, the dashboard's Cost Explorer section reports the range error and
issues zero calls to the billing API. -/
theorem cost_section_range_guard (start_date end_date : ℤ)
    (ceCall : Except CEError (List CEResultByTime))
    (h : start_date ≥ end_date) :
    dashboard_cost_section start_date end_date ceCall =
      (.rangeError "End Date must be after Start Date", 0) := by
  simp [dashboard_cost_section, h]

/-- Witness for C2: start equal to end yields the range error and no call. -/
theorem cost_section_range_guard_witness :
    dashboard_cost_section 19723 19723 (Except.ok []) =
      (.rangeError "End Date must be after Start Date", 0) :=
  cost_section_range_guard 19723 19723 (Except.ok []) (le_refl 19723)

/-- C3: the snapshot output contains exactly those records whose start time
is strictly earlier than `now` minus 60 days; every record in one call is
compared against the single cutoff `now - daysSec 60`. -/
theorem old_snapshots_mem_iff (now : ℤ) (snapshots : List Snapshot)
    (x : StaleSnapshot) :
    x ∈ old_snapshots now snapshots ↔
      ∃ s ∈ snapshots, s.startTime < now - daysSec 60 ∧
        x = mkStaleSnapshot s := by
  simp only [old_snapshots, List.mem_filterMap]
  constructor
  · rintro ⟨s, hs, hx⟩
    by_cases hc : s.startTime < now - daysSec 60
    · rw [if_pos hc] at hx
      exact ⟨s, hs, hc, (Option.some.inj hx).symm⟩
    · rw [if_neg hc] at hx
      exact absurd hx (by simp)
  · rintro ⟨s, hs, hc, rfl⟩
    exact ⟨s, hs, by rw [if_pos hc]⟩

/-- C4: `total_cost` equals the sum of the cost values of all rows, and is 0
on the empty sequence. -/
theorem total_cost_eq_sum (rows : List CostRow) :
    total_cost rows = (rows.map (·.cost)).sum ∧
      total_cost ([] : List CostRow) = 0 := by
  refine ⟨?_, rfl⟩
  simpa [total_cost] using total_cost_foldl_from 0 rows

/-- C5: the per-service summary maps each service to the sum of the cost
values of the rows with that service, independent of date; on the rows
(2024-01-01, S3, 10), (2024-01-02, S3, 5), (2024-01-01, EC2, 20) it yields
S3 ↦ 15 and EC2 ↦ 20.  Dates 2024-01-01 and 2024-01-02 are epoch days
19723 and 19724. -/
theorem service_summary_eq_grouped_sum :
    (∀ (rows : List CostRow) (s : String),
        (lookupService s (service_summary rows)).getD 0 =
          ((rows.filter (fun r => r.service = s)).map (·.cost)).sum) ∧
      service_summary
          [⟨19723, "S3", 10⟩, ⟨19724, "S3", 5⟩, ⟨19723, "EC2", 20⟩] =
        [("S3", 15), ("EC2", 20)] := by
  constructor
  · intro rows s
    simpa [service_summary, lookupService] using
      service_summary_foldl_from rows [] s
  · norm_num [service_summary, upsert]
    decide

/-- C6: every record the estimator produces for a volume carries
`estimatedMonthlyCost` equal to its size times the 0.10/GiB rate: the
two-decimal rounding is exact on size × 0.10. -/
theorem unattached_volumes_cost (region : String) (volumes : List Volume) :
    (unattached_volumes region volumes).map (·.estimatedMonthlyCost) =
      volumes.map (fun v => (v.size : ℚ) * EBS_COST_PER_GB) := by
  induction volumes with
  | nil => rfl
  | cons v vs ih =>
    have hhead : (mkStaleVolume region v).estimatedMonthlyCost
        = (v.size : ℚ) * EBS_COST_PER_GB := by
      simp only [mkStaleVolume, EBS_COST_PER_GB]
      exact round2_nat_mul_tenth v.size
    simpa [unattached_volumes, hhead] using ih

/-- C7: the unassociated-address output contains exactly the records that
lack an attached-instance field: an address without `InstanceId` is
included and one with `InstanceId` is excluded. -/
theorem unassociated_eips_mem_iff (addresses : List Address)
    (x : StaleAddress) :
    x ∈ unassociated_eips addresses ↔
      ∃ a ∈ addresses, a.instanceId = none ∧ x = mkStaleAddress a := by
  simp only [unassociated_eips, List.mem_filterMap]
  constructor
  · rintro ⟨a, ha, hx⟩
    by_cases hc : a.instanceId = none
    · rw [if_pos hc] at hx
      exact ⟨a, ha, hc, (Option.some.inj hx).symm⟩
    · rw [if_neg hc] at hx
      exact absurd hx (by simp)
  · rintro ⟨a, ha, hc, rfl⟩
    exact ⟨a, ha, by rw [if_pos hc]⟩

/-- C8 counterexample: a failing `get_object` call and a successful fetch of
the JSON body "null" make `get_lambda_results_from_s3` return the identical
value `None`, so the failure report is not a structured error value
distinguishable from every successful result. -/
theorem s3_reader_failure_counterexample :
    demoParse "null" = Except.ok PyVal.pynone ∧
      get_lambda_results_from_s3 (Except.error S3Error.notFound) demoParse =
        get_lambda_results_from_s3 (Except.ok "null") demoParse := by
  exact ⟨rfl, rfl⟩

/-- C8 amended: every failing fetch (missing object, permission failure, or
invalid JSON body) is caught and reported by returning the Python value
`None` after displaying an error message — a falsy sentinel rather than a
structured error value, and one that coincides with the successful parse of
a JSON null body. -/
theorem s3_reader_failure_returns_none
    (parse : String → Except ParseError PyVal) :
    (∀ e : S3Error,
        get_lambda_results_from_s3 (Except.error e) parse = PyVal.pynone) ∧
      ∀ (body : String) (pe : ParseError), parse body = Except.error pe →
        get_lambda_results_from_s3 (Except.ok body) parse = PyVal.pynone := by
  refine ⟨fun e => rfl, fun body pe hpe => ?_⟩
  simp [get_lambda_results_from_s3, hpe]

/-- Witness for C8 amended: a permission failure and an invalid body both
yield `None`. -/
theorem s3_reader_failure_returns_none_witness :
    get_lambda_results_from_s3 (Except.error S3Error.accessDenied) demoParse
        = PyVal.pynone ∧
      get_lambda_results_from_s3 (Except.ok "not json") demoParse
        = PyVal.pynone :=
  ⟨(s3_reader_failure_returns_none demoParse).1 S3Error.accessDenied,
    (s3_reader_failure_returns_none demoParse).2 "not json"
      ParseError.invalidJson rfl⟩

/-- C9 counterexample: an address record lacking a Domain key is included in
the output, and its domain field is "N/A", not "unknown". -/
theorem eip_domain_counterexample :
    (unassociated_eips [⟨"3.218.180.10", "eipalloc-0a1", none, none⟩]).map
        (·.domain) = ["N/A"] ∧ ("N/A" : String) ≠ "unknown" := by
  exact ⟨rfl, by decide⟩

/-- C9 amended: every included address record has domain equal to the raw
record's domain string when present and "N/A" when the Domain key is
absent. -/
theorem eip_domain_default (addresses : List Address) (x : StaleAddress)
    (hx : x ∈ unassociated_eips addresses) :
    ∃ a ∈ addresses, a.instanceId = none ∧
      x.domain = a.domain.getD "N/A" := by
  simp only [unassociated_eips, List.mem_filterMap] at hx
  obtain ⟨a, ha, hcond⟩ := hx
  by_cases hc : a.instanceId = none
  · rw [if_pos hc] at hcond
    refine ⟨a, ha, hc, ?_⟩
    rw [← Option.some.inj hcond]
    rfl
  · rw [if_neg hc] at hcond
    exact absurd hcond (by simp)

/-- Witness for C9 amended: one address with a Domain key, one without. -/
theorem eip_domain_default_witness :
    ∃ a ∈ ([⟨"3.218.180.10", "eipalloc-0a1", some "vpc", none⟩] :
        List Address),
      a.instanceId = none ∧
        (mkStaleAddress ⟨"3.218.180.10", "eipalloc-0a1", some "vpc", none⟩).domain
          = a.domain.getD "N/A" :=
  eip_domain_default [⟨"3.218.180.10", "eipalloc-0a1", some "vpc", none⟩]
    (mkStaleAddress ⟨"3.218.180.10", "eipalloc-0a1", some "vpc", none⟩)
    (by simp [unassociated_eips])

/-- C10: for two snapshot lists that differ only in the State field of their
elements, the estimator includes the same snapshots and assigns each the
same estimatedMonthlyCost: inclusion and cost are independent of state. -/
theorem old_snapshots_state_independent (now : ℤ) (l₁ l₂ : List Snapshot)
    (h : l₁.map snapSansState = l₂.map snapSansState) :
    (old_snapshots now l₁).map staleSnapSansState =
      (old_snapshots now l₂).map staleSnapSansState := by
  induction l₁ generalizing l₂ with
  | nil =>
    cases l₂ with
    | nil => rfl
    | cons b bs => exact absurd h (by simp)
  | cons a as ih =>
    cases l₂ with
    | nil => exact absurd h (by simp)
    | cons b bs =>
      simp only [List.map_cons, List.cons.injEq] at h
      obtain ⟨hab, hrest⟩ := h
      simp only [snapSansState, Prod.mk.injEq] at hab
      obtain ⟨h1, h2, h3, h4⟩ := hab
      rw [old_snapshots_cons, old_snapshots_cons, h3]
      by_cases hc : b.startTime < now - daysSec 60
      · rw [if_pos hc, if_pos hc]
        simp only [List.map_cons]
        refine congrArg₂ List.cons ?_ (ih bs hrest)
        simp [staleSnapSansState, mkStaleSnapshot, h1, h2, h3, h4]
      · rw [if_neg hc, if_neg hc]
        exact ih bs hrest

/-- Witness for C10: two singleton lists whose only difference is a pending
versus completed state produce the same inclusion and the same cost. -/
theorem old_snapshots_state_independent_witness :
    ([⟨"snap-01", "vol-01", 0, "pending", some 8⟩] :
          List Snapshot).map snapSansState
        = ([⟨"snap-01", "vol-01", 0, "completed", some 8⟩] :
          List Snapshot).map snapSansState ∧
      (old_snapshots 8640000
          [⟨"snap-01", "vol-01", 0, "pending", some 8⟩]).map
          staleSnapSansState
        = (old_snapshots 8640000
          [⟨"snap-01", "vol-01", 0, "completed", some 8⟩]).map
          staleSnapSansState :=
  ⟨rfl, old_snapshots_state_independent 8640000
    [⟨"snap-01", "vol-01", 0, "pending", some 8⟩]
    [⟨"snap-01", "vol-01", 0, "completed", some 8⟩] rfl⟩

end Dashboard
